import Mathlib

/-!
Verification development for the Zotok catalogue backend (`src/app.py`).

The shallow embedding models the credential/token lifecycle core of the
Flask service: the HMAC signature generator (`create_hmac_signature`),
the S3-backed credential store (`store_user_credentials`,
`get_user_credentials`, `update_user_credentials`), the token validity
checker (`is_token_valid`) and the four handlers `login`, `get_token`,
`refresh_token` and the POST branch of `user_settings`.

Modelling conventions:
* Time is modelled at whole-second granularity as `Int` seconds since the Unix
  epoch; `datetime.now(timezone.utc)` becomes an explicit `now : Int` argument.
* A stored JSON document is a flat association list of string keys to string or
  integer values (`JObj`): exactly the shape of every document this program
  reads or writes.  `json.dumps` followed by `json.loads` is the identity on
  such documents, so the store holds `JObj` values directly.
* The external auth API call is an oracle argument `resp : AuthResponse`
  holding the status, the raw body text and the parse of the body
  (`none` models a body `.json()` rejects).
* The boto3 client that may fail to initialise at startup is
  `Option S3Client`: `none` models `s3_client = None`.
* Each handler also returns the new store and an `Effects` trace recording the
  auth-API calls and the S3 reads and writes it actually performed.
* Fallible Python code paths (exceptions caught by `except`) are explicit
  `Option`/result branches.
-/

namespace Zotok

/-- A JSON scalar as it occurs in this program's documents. -/
inductive JVal where
  | jstr (s : String)
  | jnum (n : Int)
deriving DecidableEq

/-- A flat JSON object: the shape of every document this service stores. -/
abbrev JObj := List (String × JVal)

/-- Dictionary lookup, `d.get(k)`: `none` models an absent key (Python `None`). -/
def jLookup (o : JObj) (k : String) : Option JVal :=
  (o.find? (fun p => p.fst == k)).map Prod.snd

/-- Lookup expecting a string value. -/
def jLookupStr (o : JObj) (k : String) : Option String :=
  match jLookup o k with
  | some (JVal.jstr s) => some s
  | _ => none

/-- Lookup expecting an integer value. -/
def jLookupInt (o : JObj) (k : String) : Option Int :=
  match jLookup o k with
  | some (JVal.jnum n) => some n
  | _ => none

/-- Python truthiness of a string: non-empty. -/
def pyTruthyStr (s : String) : Bool := s != ""

/-- Python truthiness of a JSON scalar. -/
def jvalTruthy : JVal → Bool
  | JVal.jstr s => s != ""
  | JVal.jnum n => n != 0

/-- Python truthiness of `d.get(k)`: `None` (absent) is falsy. -/
def optTruthy : Option JVal → Bool
  | none => false
  | some v => jvalTruthy v

/-- Python `a or b` on two `d.get` results. -/
def pyOr (a b : Option JVal) : Option JVal :=
  if optTruthy a then a else b

/-- The per-user stored document (`user_data` in `src/app.py`): the keys
`store_user_credentials` always writes, plus the two optional settings keys the
settings endpoint may add.  `login_token` is kept as a JSON scalar because the
code stores whatever scalar the auth API returned. -/
structure Record where
  canva_user_id : String
  workspace_id : String
  client_id : String
  client_secret : String
  login_token : JVal
  token_timestamp : String
  token_expires_in : Option Int
  phoneNumber : Option String
  settings_updated : Option String
deriving DecidableEq

/-- The JSON document of a record, as `json.dumps(user_data)` lays it out:
optional keys are present exactly when the record carries them. -/
def recordToJson (r : Record) : JObj :=
  [("canva_user_id", JVal.jstr r.canva_user_id),
   ("workspace_id", JVal.jstr r.workspace_id),
   ("client_id", JVal.jstr r.client_id),
   ("client_secret", JVal.jstr r.client_secret),
   ("login_token", r.login_token),
   ("token_timestamp", JVal.jstr r.token_timestamp)]
  ++ (match r.token_expires_in with
      | some n => [("token_expires_in", JVal.jnum n)]
      | none => [])
  ++ (match r.phoneNumber with
      | some p => [("phoneNumber", JVal.jstr p)]
      | none => [])
  ++ (match r.settings_updated with
      | some t => [("settings_updated", JVal.jstr t)]
      | none => [])

/-- Reading a stored document back into a record: the mandatory keys must be
present with their stored types, the optional keys are read when present.
`none` models a document that does not deserialize into a credential record. -/
def recordOfJson (o : JObj) : Option Record := do
  let cu ← jLookupStr o "canva_user_id"
  let w ← jLookupStr o "workspace_id"
  let ci ← jLookupStr o "client_id"
  let cs ← jLookupStr o "client_secret"
  let tok ← jLookup o "login_token"
  let ts ← jLookupStr o "token_timestamp"
  some ⟨cu, w, ci, cs, tok, ts, jLookupInt o "token_expires_in",
        jLookupStr o "phoneNumber", jLookupStr o "settings_updated"⟩

/-- The S3 bucket contents: one JSON document per key. -/
structure S3Client where
  objects : List (String × JObj)
deriving DecidableEq

/-- `s3_client.get_object`: `none` models the missing-key exception. -/
def s3GetObject (cl : S3Client) (key : String) : Option JObj :=
  (cl.objects.find? (fun p => p.fst == key)).map Prod.snd

/-- `s3_client.put_object`: full overwrite of the document at `key`. -/
def s3PutObject (cl : S3Client) (key : String) (body : JObj) : S3Client :=
  ⟨(key, body) :: cl.objects.filter (fun p => !(p.fst == key))⟩

/-- The storage key derived from the user id. -/
def credFilename (uid : String) : String := "canva-catalog-app/" ++ uid ++ ".json"

/-! ## Time

`datetime` values are whole seconds since the Unix epoch.  `isoFormat` models
`datetime.now(timezone.utc).isoformat()` (at second granularity) and `parseIso`
models `datetime.fromisoformat` restricted to the timestamp shapes this service
reads: a full date, a `T` or space separator, `HH:MM` with optional `:SS` and an
optional 3- or 6-digit fraction (ignored at this granularity), and a mandatory
`±HH:MM` offset.  A string `fromisoformat` rejects — and also one it parses as
an offset-naive datetime, which the enclosing arithmetic with an aware `now`
then raises on — yields `none`. -/

/-- Gregorian leap year. -/
def isLeap (y : Nat) : Bool := (y % 4 == 0 && y % 100 != 0) || y % 400 == 0

/-- Days in a month of a given year. -/
def daysInMonth (y m : Nat) : Nat :=
  match m with
  | 2 => if isLeap y then 29 else 28
  | 4 => 30
  | 6 => 30
  | 9 => 30
  | 11 => 30
  | _ => 31

/-- Days since 1970-01-01 of a civil date (years 1..9999, validated months and
days), by the standard era decomposition. -/
def daysFromCivil (y m d : Nat) : Int :=
  let y1 := if m ≤ 2 then y - 1 else y
  let era := y1 / 400
  let yoe := y1 - era * 400
  let mp := if m > 2 then m - 3 else m + 9
  let doy := (153 * mp + 2) / 5 + (d - 1)
  let doe := yoe * 365 + yoe / 4 - yoe / 100 + doy
  ((era * 146097 + doe : Nat) : Int) - 719468

/-- Civil date of a day count since 1970-01-01 (inverse era decomposition). -/
def civilFromDays (z : Int) : Int × Nat × Nat :=
  let z1 := z + 719468
  let era := Int.fdiv z1 146097
  let doe := (z1 - era * 146097).toNat
  let yoe := (doe - doe / 1460 + doe / 36524 - doe / 146096) / 365
  let doy := doe - (365 * yoe + yoe / 4 - yoe / 100)
  let mp := (5 * doy + 2) / 153
  let d := doy - (153 * mp + 2) / 5 + 1
  let m := if mp < 10 then mp + 3 else mp - 9
  (era * 400 + (yoe : Int) + (if m ≤ 2 then 1 else 0), m, d)

/-- Zero-padded two-digit field. -/
def pad2 (n : Nat) : String := if n < 10 then "0" ++ toString n else toString n

/-- Zero-padded four-digit year. -/
def pad4 (y : Int) : String :=
  if y < 0 then toString y
  else if y < 10 then "000" ++ toString y
  else if y < 100 then "00" ++ toString y
  else if y < 1000 then "0" ++ toString y
  else toString y

/-- `datetime.fromtimestamp(t, timezone.utc).isoformat()` at second
granularity: `YYYY-MM-DDTHH:MM:SS+00:00`. -/
def isoFormat (t : Int) : String :=
  let days := Int.fdiv t 86400
  let sod := (t - days * 86400).toNat
  let c := civilFromDays days
  pad4 c.1 ++ "-" ++ pad2 c.2.1 ++ "-" ++ pad2 c.2.2 ++ "T" ++
    pad2 (sod / 3600) ++ ":" ++ pad2 (sod % 3600 / 60) ++ ":" ++ pad2 (sod % 60) ++
    "+00:00"

/-- Value of a decimal digit character. -/
def digitVal (c : Char) : Option Nat :=
  if c.isDigit then some (c.toNat - 48) else none

/-- Parse exactly `n` decimal digits into their value. -/
def parseFixedNat : Nat → List Char → Option (Nat × List Char)
  | 0, cs => some (0, cs)
  | _ + 1, [] => none
  | n + 1, c :: cs => do
      let d ← digitVal c
      let r ← parseFixedNat n cs
      some (d * 10 ^ n + r.1, r.2)

/-- Consume one expected character. -/
def expectChar (c : Char) : List Char → Option (List Char)
  | [] => none
  | x :: xs => if x = c then some xs else none

/-- Parse the mandatory UTC-offset tail `±HH:MM` (nothing may follow);
returns the offset in seconds. -/
def parseOffsetBody (sign : Int) (cs : List Char) : Option Int := do
  let hh ← parseFixedNat 2 cs
  let cs1 ← expectChar ':' hh.2
  let mm ← parseFixedNat 2 cs1
  if mm.2 = [] ∧ hh.1 ≤ 23 ∧ mm.1 ≤ 59 then
    some (sign * ((hh.1 : Int) * 3600 + (mm.1 : Int) * 60))
  else none

/-- Parse the offset with its sign. -/
def parseOffset : List Char → Option Int
  | '+' :: cs => parseOffsetBody 1 cs
  | '-' :: cs => parseOffsetBody (-1) cs
  | _ => none

/-- Parse an optional fractional-seconds field (3 or 6 digits, discarded at
whole-second granularity) and then the offset. -/
def parseFracThenOffset (cs : List Char) : Option Int :=
  match cs with
  | '.' :: rest =>
      let sp := rest.span Char.isDigit
      if sp.1.length = 3 ∨ sp.1.length = 6 then parseOffset sp.2 else none
  | _ => parseOffset cs

/-- `datetime.fromisoformat` on the shapes described above, to epoch seconds.
`none` both for strings it rejects and for offset-naive results (which make the
caller's aware-minus-naive subtraction raise). -/
def parseIso (s : String) : Option Int := do
  let y ← parseFixedNat 4 s.data
  let cs1 ← expectChar '-' y.2
  let mo ← parseFixedNat 2 cs1
  let cs2 ← expectChar '-' mo.2
  let d ← parseFixedNat 2 cs2
  if 1 ≤ y.1 ∧ 1 ≤ mo.1 ∧ mo.1 ≤ 12 ∧ 1 ≤ d.1 ∧ d.1 ≤ daysInMonth y.1 mo.1 then
    match d.2 with
    | [] => none
    | sep :: cs3 =>
      if sep = 'T' ∨ sep = ' ' then do
        let hh ← parseFixedNat 2 cs3
        let cs4 ← expectChar ':' hh.2
        let mi ← parseFixedNat 2 cs4
        let ss ← match mi.2 with
          | ':' :: cs5 => parseFixedNat 2 cs5
          | other => some (0, other)
        if hh.1 ≤ 23 ∧ mi.1 ≤ 59 ∧ ss.1 ≤ 59 then do
          let off ← parseFracThenOffset ss.2
          some (daysFromCivil y.1 mo.1 d.1 * 86400 +
                ((hh.1 * 3600 + mi.1 * 60 + ss.1 : Nat) : Int) - off)
        else none
      else none
  else none

/-- `s.replace('Z', '+00:00')` as `is_token_valid` applies it. -/
def replaceZ (s : String) : String :=
  ⟨s.data.foldr
    (fun ch acc =>
      if ch = 'Z' then '+' :: '0' :: '0' :: ':' :: '0' :: '0' :: acc else ch :: acc)
    []⟩

/-! ## SHA-256 and HMAC

The signature generator calls `hmac.new(secret, message, hashlib.sha256)`;
both primitives are embedded here over byte lists (`List Nat`, each entry
below 256) with 32-bit words as `Nat` reduced modulo `2 ^ 32`.  Standalone
test-vector theorems further down check the embedding against the published
SHA-256 and RFC 4231 HMAC digests. -/

/-- The 32-bit word modulus. -/
def w32 : Nat := 4294967296

/-- 32-bit addition. -/
def add32 (a b : Nat) : Nat := (a + b) % w32

/-- 32-bit right rotation. -/
def rotr (n x : Nat) : Nat := ((x >>> n) ||| (x <<< (32 - n))) % w32

/-- Bitwise complement within 32 bits. -/
def not32 (x : Nat) : Nat := x ^^^ 4294967295

/-- SHA-256 choose function. -/
def shaCh (x y z : Nat) : Nat := (x &&& y) ^^^ (not32 x &&& z)

/-- SHA-256 majority function. -/
def shaMaj (x y z : Nat) : Nat := (x &&& y) ^^^ (x &&& z) ^^^ (y &&& z)

/-- SHA-256 big sigma 0. -/
def bigSigma0 (x : Nat) : Nat := rotr 2 x ^^^ rotr 13 x ^^^ rotr 22 x

/-- SHA-256 big sigma 1. -/
def bigSigma1 (x : Nat) : Nat := rotr 6 x ^^^ rotr 11 x ^^^ rotr 25 x

/-- SHA-256 small sigma 0. -/
def smallSigma0 (x : Nat) : Nat := rotr 7 x ^^^ rotr 18 x ^^^ (x >>> 3)

/-- SHA-256 small sigma 1. -/
def smallSigma1 (x : Nat) : Nat := rotr 17 x ^^^ rotr 19 x ^^^ (x >>> 10)

/-- The SHA-256 round constants (decimal). -/
def shaK : List Nat :=
  [1116352408, 1899447441, 3049323471, 3921009573, 961987163,
   1508970993, 2453635748, 2870763221, 3624381080, 310598401,
   607225278, 1426881987, 1925078388, 2162078206, 2614888103,
   3248222580, 3835390401, 4022224774, 264347078, 604807628,
   770255983, 1249150122, 1555081692, 1996064986, 2554220882,
   2821834349, 2952996808, 3210313671, 3336571891, 3584528711,
   113926993, 338241895, 666307205, 773529912, 1294757372,
   1396182291, 1695183700, 1986661051, 2177026350, 2456956037,
   2730485921, 2820302411, 3259730800, 3345764771, 3516065817,
   3600352804, 4094571909, 275423344, 430227734, 506948616,
   659060556, 883997877, 958139571, 1322822218, 1537002063,
   1747873779, 1955562222, 2024104815, 2227730452, 2361852424,
   2428436474, 2756734187, 3204031479, 3329325298]

/-- The eight SHA-256 working variables. -/
structure Sha256State where
  a : Nat
  b : Nat
  c : Nat
  d : Nat
  e : Nat
  f : Nat
  g : Nat
  h : Nat

/-- The SHA-256 initial hash value (decimal). -/
def shaInit : Sha256State :=
  ⟨1779033703, 3144134277, 1013904242, 2773480762,
   1359893119, 2600822924, 528734635, 1541459225⟩

/-- A big-endian 32-bit word from up to four bytes. -/
def wordOfBytesBE (bs : List Nat) : Nat := bs.foldl (fun acc b => acc * 256 + b) 0

/-- The four big-endian bytes of a 32-bit word. -/
def wordBytesBE (w : Nat) : List Nat :=
  [(w >>> 24) % 256, (w >>> 16) % 256, (w >>> 8) % 256, w % 256]

/-- The 64-word message schedule of one 64-byte block. -/
def shaSchedule (block : List Nat) : List Nat :=
  let w16 := (List.range 16).map fun i => wordOfBytesBE ((block.drop (4 * i)).take 4)
  (List.range 48).foldl
    (fun w _ =>
      w ++ [add32 (add32 (smallSigma1 (w.getD (w.length - 2) 0)) (w.getD (w.length - 7) 0))
                  (add32 (smallSigma0 (w.getD (w.length - 15) 0)) (w.getD (w.length - 16) 0))])
    w16

/-- One SHA-256 round for a `(constant, schedule word)` pair. -/
def shaRound (st : Sha256State) (kw : Nat × Nat) : Sha256State :=
  let t1 := add32 st.h (add32 (bigSigma1 st.e) (add32 (shaCh st.e st.f st.g) (add32 kw.1 kw.2)))
  let t2 := add32 (bigSigma0 st.a) (shaMaj st.a st.b st.c)
  ⟨add32 t1 t2, st.a, st.b, st.c, add32 st.d t1, st.e, st.f, st.g⟩

/-- Compression of one 64-byte block into the running state. -/
def shaCompress (st : Sha256State) (block : List Nat) : Sha256State :=
  let w := shaSchedule block
  let r := (shaK.zip w).foldl shaRound st
  ⟨add32 st.a r.a, add32 st.b r.b, add32 st.c r.c, add32 st.d r.d,
   add32 st.e r.e, add32 st.f r.f, add32 st.g r.g, add32 st.h r.h⟩

/-- SHA-256 padding: `0x80`, zeros to 56 mod 64, then the 8-byte bit length. -/
def shaPad (msg : List Nat) : List Nat :=
  let l := msg.length
  let z := (64 - (l + 9) % 64) % 64
  msg ++ [128] ++ List.replicate z 0 ++ (List.range 8).map fun i => (8 * l) >>> (8 * (7 - i)) % 256

/-- Split a byte list into 64-byte blocks (fuel-driven structural recursion). -/
def toBlocksAux : Nat → List Nat → List (List Nat)
  | 0, _ => []
  | _, [] => []
  | fuel + 1, bs => bs.take 64 :: toBlocksAux fuel (bs.drop 64)

/-- The 64-byte blocks of a padded message. -/
def toBlocks (bs : List Nat) : List (List Nat) := toBlocksAux bs.length bs

/-- The 32 digest bytes of a final state. -/
def shaDigestBytes (st : Sha256State) : List Nat :=
  wordBytesBE st.a ++ wordBytesBE st.b ++ wordBytesBE st.c ++ wordBytesBE st.d ++
  wordBytesBE st.e ++ wordBytesBE st.f ++ wordBytesBE st.g ++ wordBytesBE st.h

/-- `hashlib.sha256(msg).digest()` over byte lists. -/
def sha256Bytes (msg : List Nat) : List Nat :=
  shaDigestBytes ((toBlocks (shaPad msg)).foldl shaCompress shaInit)

/-- `hmac.new(key, msg, hashlib.sha256).digest()` (RFC 2104, block size 64). -/
def hmacSha256 (key msg : List Nat) : List Nat :=
  let k0 := if key.length > 64 then sha256Bytes key else key
  let k := k0 ++ List.replicate (64 - k0.length) 0
  sha256Bytes (k.map (fun b => b ^^^ 92) ++ sha256Bytes (k.map (fun b => b ^^^ 54) ++ msg))

/-- UTF-8 encoding of one character. -/
def charUtf8 (c : Char) : List Nat :=
  let n := c.toNat
  if n < 128 then [n]
  else if n < 2048 then [192 + n / 64, 128 + n % 64]
  else if n < 65536 then [224 + n / 4096, 128 + n / 64 % 64, 128 + n % 64]
  else [240 + n / 262144, 128 + n / 4096 % 64, 128 + n / 64 % 64, 128 + n % 64]

/-- `s.encode('utf-8')` as a byte list. -/
def utf8Bytes (s : String) : List Nat := s.data.flatMap charUtf8

/-- The sixteen lowercase hexadecimal digits. -/
def hexDigits : List Char := "0123456789abcdef".data

/-- The lowercase hex character of a value below 16. -/
def hexChar (n : Nat) : Char := hexDigits.getD n '0'

/-- `.hexdigest()`: the lowercase hex string of a byte list. -/
def bytesToHex (bs : List Nat) : String :=
  ⟨bs.flatMap fun b => [hexChar (b / 16 % 16), hexChar (b % 16)]⟩

/-- The signature generator `create_hmac_signature` of `src/app.py`: the
lowercase hex digest of the HMAC-SHA256 of `workspace_id + "_" + client_id`
keyed by `client_secret`. -/
def create_hmac_signature (workspace_id client_id client_secret : String) : String :=
  let message := workspace_id ++ "_" ++ client_id
  bytesToHex (hmacSha256 (utf8Bytes client_secret) (utf8Bytes message))

/-! ## Credential store operations and the validity checker -/

/-- `TOKEN_EXPIRY_SECONDS = 28 * 24 * 60 * 60`. -/
def TOKEN_EXPIRY_SECONDS : Int := 28 * 24 * 60 * 60

/-- `store_user_credentials` of `src/app.py`: with no client it only reports
failure; otherwise it builds the credential document from scratch — the seven
keys of `user_data`, nothing else — and writes it wholesale at
`canva-catalog-app/{uid}.json`.  Returns the success flag and the new store. -/
def store_user_credentials (now : Int) (s3 : Option S3Client)
    (canva_user_id workspace_id client_id client_secret : String)
    (login_token : JVal) (expires_in : Int) : Bool × Option S3Client :=
  match s3 with
  | none => (false, none)
  | some cl =>
      let user_data : Record :=
        ⟨canva_user_id, workspace_id, client_id, client_secret, login_token,
         isoFormat now, some expires_in, none, none⟩
      (true, some (s3PutObject cl (credFilename canva_user_id) (recordToJson user_data)))

/-- `get_user_credentials` of `src/app.py`: `none` when the client failed to
initialise, when the key is missing, or when the document does not deserialize
into a credential record — the code collapses all three into `None`. -/
def get_user_credentials (s3 : Option S3Client) (canva_user_id : String) : Option Record :=
  match s3 with
  | none => none
  | some cl =>
      match s3GetObject cl (credFilename canva_user_id) with
      | none => none
      | some o => recordOfJson o

/-- `update_user_credentials` of `src/app.py`: write an arbitrary document at
the user's key (full overwrite), reporting failure with no client. -/
def update_user_credentials (s3 : Option S3Client) (canva_user_id : String)
    (updated_data : JObj) : Bool × Option S3Client :=
  match s3 with
  | none => (false, none)
  | some cl => (true, some (s3PutObject cl (credFilename canva_user_id) updated_data))

/-- `is_token_valid` of `src/app.py`: parse `token_timestamp` (with `Z`
rewritten to `+00:00`), default a missing `token_expires_in` to
`TOKEN_EXPIRY_SECONDS`, and compare the age strictly; any parse failure is
caught and yields `False`. -/
def is_token_valid (now : Int) (user_data : Record) : Bool :=
  match parseIso (replaceZ user_data.token_timestamp) with
  | none => false
  | some t =>
      decide (now - t < user_data.token_expires_in.getD TOKEN_EXPIRY_SECONDS)

/-! ## The handlers

Each handler is the corresponding Flask view restricted to the request data it
reads: JSON body fields and query parameters become `String` arguments with
`""` for an absent or empty field (both are falsy in the `if not x` guards),
the `Authorization` header an `Option String`, and the single outbound auth
call an `AuthResponse` oracle.  Alongside its result every handler returns the
store it leaves behind and an `Effects` trace of the auth calls, S3 object
reads and S3 object writes it actually performed. -/

/-- The outcome of the one `requests.post` to the Zotok auth endpoint:
upstream status, raw body text, and the parse of the body (`none` when
`response.json()` raises). -/
structure AuthResponse where
  status : Nat
  text : String
  jsonBody : Option JObj
deriving DecidableEq

/-- The JSON payload posted to the auth endpoint. -/
structure AuthPayload where
  workspaceId : String
  clientId : String
  signature : String
deriving DecidableEq

/-- The outbound effects of one handler run. -/
structure Effects where
  authCalls : List AuthPayload
  s3Reads : List String
  s3Writes : List String
deriving DecidableEq

/-- No effects. -/
def noEffects : Effects := ⟨[], [], []⟩

/-- The S3 keys a `get_user_credentials` call actually reads (none when the
client failed to initialise: the code returns before any S3 request). -/
def s3ReadTrace (s3 : Option S3Client) (uid : String) : List String :=
  match s3 with
  | none => []
  | some _ => [credFilename uid]

/-- The S3 keys a store write actually touches (none without a client). -/
def s3WriteTrace (s3 : Option S3Client) (uid : String) : List String :=
  match s3 with
  | none => []
  | some _ => [credFilename uid]

/-- `auth_data.get('token') or auth_data.get('access_token')`: the ordered,
truthiness-driven token extraction shared by `login` and `refresh_token`. -/
def extractToken (auth_data : JObj) : Option JVal :=
  pyOr (jLookup auth_data "token") (jLookup auth_data "access_token")

/-- The result branches of the `/auth/login` view. -/
inductive LoginResult where
  | missingCredentials
  | authRejected (status : Nat) (details : String)
  | invalidJsonResponse (details : String)
  | noTokenIssued
  | persistFailed
  | loginSuccess (token : JVal) (expires_in : Int)
deriving DecidableEq

/-- The HTTP status `login` attaches to each result. -/
def loginStatus : LoginResult → Nat
  | LoginResult.missingCredentials => 400
  | LoginResult.authRejected _ _ => 401
  | LoginResult.invalidJsonResponse _ => 401
  | LoginResult.noTokenIssued => 401
  | LoginResult.persistFailed => 500
  | LoginResult.loginSuccess _ _ => 200

/-- The `/auth/login` view of `src/app.py`. -/
def login (now : Int) (s3 : Option S3Client)
    (workspace_id client_id client_secret canva_user_id : String)
    (resp : AuthResponse) : LoginResult × Option S3Client × Effects :=
  if !(pyTruthyStr workspace_id && pyTruthyStr client_id &&
       pyTruthyStr client_secret && pyTruthyStr canva_user_id) then
    (LoginResult.missingCredentials, s3, noEffects)
  else
    let signature := create_hmac_signature workspace_id client_id client_secret
    let called : Effects := ⟨[⟨workspace_id, client_id, signature⟩], [], []⟩
    if !([200, 201, 202].contains resp.status) then
      (LoginResult.authRejected resp.status resp.text, s3, called)
    else
      match resp.jsonBody with
      | none => (LoginResult.invalidJsonResponse resp.text, s3, called)
      | some auth_data =>
          match extractToken auth_data with
          | none => (LoginResult.noTokenIssued, s3, called)
          | some login_token =>
              if !(jvalTruthy login_token) then
                (LoginResult.noTokenIssued, s3, called)
              else
                let put := store_user_credentials now s3 canva_user_id workspace_id
                  client_id client_secret login_token TOKEN_EXPIRY_SECONDS
                if put.1 then
                  (LoginResult.loginSuccess login_token TOKEN_EXPIRY_SECONDS, put.2,
                   { called with s3Writes := s3WriteTrace s3 canva_user_id })
                else
                  (LoginResult.persistFailed, put.2,
                   { called with s3Writes := s3WriteTrace s3 canva_user_id })

/-- The result branches of the `/auth/token` view. -/
inductive GetTokenResult where
  | missingUserId
  | noStoredCredentials
  | tokenExpired
  | internalError
  | tokenSuccess (token : JVal) (remaining_seconds : Int)
deriving DecidableEq

/-- The HTTP status `get_token` attaches to each result. -/
def getTokenStatus : GetTokenResult → Nat
  | GetTokenResult.missingUserId => 400
  | GetTokenResult.noStoredCredentials => 404
  | GetTokenResult.tokenExpired => 401
  | GetTokenResult.internalError => 500
  | GetTokenResult.tokenSuccess _ _ => 200

/-- The `/auth/token` view of `src/app.py` (read-only: no store or auth
effects). -/
def get_token (now : Int) (s3 : Option S3Client) (canva_user_id : String) :
    GetTokenResult :=
  if !(pyTruthyStr canva_user_id) then GetTokenResult.missingUserId
  else
    match get_user_credentials s3 canva_user_id with
    | none => GetTokenResult.noStoredCredentials
    | some user_data =>
        if is_token_valid now user_data then
          match parseIso (replaceZ user_data.token_timestamp) with
          | some t =>
              GetTokenResult.tokenSuccess user_data.login_token
                (user_data.token_expires_in.getD TOKEN_EXPIRY_SECONDS - (now - t))
          | none => GetTokenResult.internalError
        else GetTokenResult.tokenExpired

/-- The result branches of the `/auth/refresh` view. -/
inductive RefreshResult where
  | missingUserId
  | noStoredCredentials
  | authRejected (status : Nat) (details : String)
  | invalidJsonResponse (details : String)
  | noTokenIssued
  | persistFailed
  | refreshSuccess (token : JVal) (expires_in : Int)
deriving DecidableEq

/-- The HTTP status `refresh_token` attaches to each result. -/
def refreshStatus : RefreshResult → Nat
  | RefreshResult.missingUserId => 400
  | RefreshResult.noStoredCredentials => 404
  | RefreshResult.authRejected _ _ => 401
  | RefreshResult.invalidJsonResponse _ => 401
  | RefreshResult.noTokenIssued => 401
  | RefreshResult.persistFailed => 500
  | RefreshResult.refreshSuccess _ _ => 200

/-- The `/auth/refresh` view of `src/app.py`: load the stored record, re-sign
with the stored credentials, re-authenticate, then write the freshly built
credential document through `store_user_credentials`. -/
def refresh_token (now : Int) (s3 : Option S3Client) (canva_user_id : String)
    (resp : AuthResponse) : RefreshResult × Option S3Client × Effects :=
  if !(pyTruthyStr canva_user_id) then
    (RefreshResult.missingUserId, s3, noEffects)
  else
    match get_user_credentials s3 canva_user_id with
    | none =>
        (RefreshResult.noStoredCredentials, s3, ⟨[], s3ReadTrace s3 canva_user_id, []⟩)
    | some user_data =>
        let signature := create_hmac_signature user_data.workspace_id
          user_data.client_id user_data.client_secret
        let called : Effects :=
          ⟨[⟨user_data.workspace_id, user_data.client_id, signature⟩],
           s3ReadTrace s3 canva_user_id, []⟩
        if !([200, 201, 202].contains resp.status) then
          (RefreshResult.authRejected resp.status resp.text, s3, called)
        else
          match resp.jsonBody with
          | none => (RefreshResult.invalidJsonResponse resp.text, s3, called)
          | some auth_data =>
              match extractToken auth_data with
              | none => (RefreshResult.noTokenIssued, s3, called)
              | some new_token =>
                  if !(jvalTruthy new_token) then
                    (RefreshResult.noTokenIssued, s3, called)
                  else
                    let put := store_user_credentials now s3 canva_user_id
                      user_data.workspace_id user_data.client_id
                      user_data.client_secret new_token TOKEN_EXPIRY_SECONDS
                    if put.1 then
                      (RefreshResult.refreshSuccess new_token TOKEN_EXPIRY_SECONDS, put.2,
                       { called with s3Writes := s3WriteTrace s3 canva_user_id })
                    else
                      (RefreshResult.persistFailed, put.2,
                       { called with s3Writes := s3WriteTrace s3 canva_user_id })

/-- `phone_number.strip()`: Python's default whitespace strip. -/
def pyStrip (s : String) : String :=
  ⟨((s.data.dropWhile Char.isWhitespace).reverse.dropWhile Char.isWhitespace).reverse⟩

/-- The result branches of the POST branch of `/api/user/settings`. -/
inductive SetPhoneResult where
  | missingUserId
  | phoneRequired
  | missingAuthHeader
  | userNotFound
  | tokenExpired
  | saveFailed
  | settingsSaved (phoneNumber : String)
deriving DecidableEq

/-- The HTTP status the settings POST attaches to each result. -/
def setPhoneStatus : SetPhoneResult → Nat
  | SetPhoneResult.missingUserId => 400
  | SetPhoneResult.phoneRequired => 400
  | SetPhoneResult.missingAuthHeader => 401
  | SetPhoneResult.userNotFound => 404
  | SetPhoneResult.tokenExpired => 401
  | SetPhoneResult.saveFailed => 500
  | SetPhoneResult.settingsSaved _ => 200

/-- The POST branch of the `/api/user/settings` view of `src/app.py`: validate
the inputs, load the record, check validity, set `phoneNumber` and
`settings_updated`, write the full record back. -/
def user_settings_post (now : Int) (s3 : Option S3Client)
    (canva_user_id phone_number_raw : String) (auth_header : Option String) :
    SetPhoneResult × Option S3Client × Effects :=
  let phone_number := pyStrip phone_number_raw
  if !(pyTruthyStr canva_user_id) then
    (SetPhoneResult.missingUserId, s3, noEffects)
  else if !(pyTruthyStr phone_number) then
    (SetPhoneResult.phoneRequired, s3, noEffects)
  else if !(match auth_header with
            | some a => pyTruthyStr a
            | none => false) then
    (SetPhoneResult.missingAuthHeader, s3, noEffects)
  else
    let reads := s3ReadTrace s3 canva_user_id
    match get_user_credentials s3 canva_user_id with
    | none => (SetPhoneResult.userNotFound, s3, ⟨[], reads, []⟩)
    | some user_data =>
        if !(is_token_valid now user_data) then
          (SetPhoneResult.tokenExpired, s3, ⟨[], reads, []⟩)
        else
          let updated : Record :=
            { user_data with
                phoneNumber := some phone_number,
                settings_updated := some (isoFormat now) }
          let put := update_user_credentials s3 canva_user_id (recordToJson updated)
          if put.1 then
            (SetPhoneResult.settingsSaved phone_number, put.2,
             ⟨[], reads, s3WriteTrace s3 canva_user_id⟩)
          else
            (SetPhoneResult.saveFailed, put.2, ⟨[], reads, []⟩)

/-! ## Concrete fixtures

A stored record carrying a phone number, the store holding it, and a
successful auth response, used by counterexamples and witnesses. -/

/-- A stored record for user `u1` that carries a phone number. -/
def sampleRecord : Record :=
  ⟨"u1", "w1", "c1", "s1", JVal.jstr "oldtok", "2024-01-01T00:00:00+00:00",
   some TOKEN_EXPIRY_SECONDS, some "+15551234", some "2024-01-01T00:00:00+00:00"⟩

/-- A client whose only object is `sampleRecord`'s document. -/
def sampleClient : S3Client := ⟨[(credFilename "u1", recordToJson sampleRecord)]⟩

/-- The store holding exactly `sampleRecord`'s document. -/
def sampleStore : Option S3Client := some sampleClient

/-- A successful auth response issuing the token `newtok`. -/
def sampleAuthOK : AuthResponse := ⟨200, "body", some [("token", JVal.jstr "newtok")]⟩

/-- A sample instant: 2024-03-05T06:07:08+00:00. -/
def sampleNow : Int := 1709618828

/-! ## Theorems -/

theorem s3Get_after_put (cl : S3Client) (key : String) (body : JObj) :
    s3GetObject (s3PutObject cl key body) key = some body := by
  simp [s3GetObject, s3PutObject, List.find?]

/-- Serialization then deserialization is the identity on records. -/
theorem recordOfJson_recordToJson (r : Record) : recordOfJson (recordToJson r) = some r := by
  rcases r with ⟨cu, w, ci, cs, tok, ts, te, ph, su⟩
  rcases te with _ | te <;> rcases ph with _ | ph <;> rcases su with _ | su <;> rfl

/-- C7: for every user id and record, a store put followed by a get with no
intervening write succeeds and returns a record deep-equal to the one written:
serializing to JSON at the key derived from the user id and deserializing is
the identity on records. -/
theorem C7_put_get_roundtrip (cl : S3Client) (canva_user_id : String) (r : Record) :
    (update_user_credentials (some cl) canva_user_id (recordToJson r)).1 = true ∧
    get_user_credentials
      (update_user_credentials (some cl) canva_user_id (recordToJson r)).2
      canva_user_id = some r := by
  refine ⟨rfl, ?_⟩
  simp [update_user_credentials, get_user_credentials, s3Get_after_put,
    recordOfJson_recordToJson]

/-- C2: the validity check is a pure function of the record and `now`; the
28-day default is 2,419,200 seconds; a timestamp that does not parse (or
parses offset-naive) fails closed; when it parses to `t`, the record is valid
iff `now - t` is strictly below the TTL (a missing TTL defaulting), it is
invalid at the exact expiry instant, and validity is antitone in `now`, so it
flips at most once as `now` grows past `t + ttl`. -/
theorem C2_is_token_valid_spec (user_data : Record) (now t : Int) :
    TOKEN_EXPIRY_SECONDS = 2419200 ∧
    (parseIso (replaceZ user_data.token_timestamp) = none →
      is_token_valid now user_data = false) ∧
    (parseIso (replaceZ user_data.token_timestamp) = some t →
      ((is_token_valid now user_data = true ↔
          now - t < user_data.token_expires_in.getD TOKEN_EXPIRY_SECONDS) ∧
        is_token_valid (t + user_data.token_expires_in.getD TOKEN_EXPIRY_SECONDS)
          user_data = false ∧
        ∀ n1 n2 : Int, n1 ≤ n2 → is_token_valid n2 user_data = true →
          is_token_valid n1 user_data = true)) := by
  refine ⟨rfl, fun h => by simp [is_token_valid, h], fun h => ?_⟩
  unfold is_token_valid
  rw [h]
  refine ⟨by simp, by simp, ?_⟩
  intro n1 n2 h12 h2
  simp only [decide_eq_true_eq] at h2 ⊢
  omega

/-! Helper lemmas for the signature generator. -/

theorem shaDigestBytes_length (st : Sha256State) : (shaDigestBytes st).length = 32 := by
  simp [shaDigestBytes, wordBytesBE]

theorem sha256Bytes_length (msg : List Nat) : (sha256Bytes msg).length = 32 :=
  shaDigestBytes_length _

theorem hmacSha256_length (key msg : List Nat) : (hmacSha256 key msg).length = 32 :=
  sha256Bytes_length _

theorem hexChar_mem (n : Nat) : hexChar n ∈ hexDigits := by
  unfold hexChar
  rcases Nat.lt_or_ge n 16 with h | h
  · interval_cases n <;> decide
  · have hlen : hexDigits.length = 16 := by decide
    rw [List.getD_eq_default]
    · decide
    · rw [hlen]
      exact h

theorem bytesToHex_length (bs : List Nat) : (bytesToHex bs).length = 2 * bs.length := by
  show (bs.flatMap fun b => [hexChar (b / 16 % 16), hexChar (b % 16)]).length = 2 * bs.length
  induction bs with
  | nil => rfl
  | cons b bs ih => simp [List.flatMap_cons, ih]; ring

theorem mem_bytesToHex (bs : List Nat) (ch : Char)
    (h : ch ∈ (bytesToHex bs).data) : ch ∈ hexDigits := by
  have h2 : ch ∈ bs.flatMap fun b => [hexChar (b / 16 % 16), hexChar (b % 16)] := h
  rw [List.mem_flatMap] at h2
  obtain ⟨b, _, hc⟩ := h2
  simp only [List.mem_cons, List.not_mem_nil, or_false] at hc
  rcases hc with hc | hc <;> rw [hc] <;> exact hexChar_mem _

/-- C4: the signature generator returns the lowercase hexadecimal digest of
the HMAC-SHA256 of `workspaceId + "_" + clientId` keyed by `clientSecret`; as
a pure function it is deterministic and side-effect free, it is total on all
string inputs (empty ones included), and its output is always 64 lowercase
hex characters (a 256-bit digest). -/
theorem C4_create_hmac_signature_spec (workspace_id client_id client_secret : String) :
    create_hmac_signature workspace_id client_id client_secret =
      bytesToHex (hmacSha256 (utf8Bytes client_secret)
        (utf8Bytes (workspace_id ++ "_" ++ client_id))) ∧
    (create_hmac_signature workspace_id client_id client_secret).length = 64 ∧
    ∀ ch ∈ (create_hmac_signature workspace_id client_id client_secret).data,
      ch ∈ hexDigits := by
  refine ⟨rfl, ?_, ?_⟩
  · show (bytesToHex (hmacSha256 _ _)).length = 64
    rw [bytesToHex_length, hmacSha256_length]
  · intro ch hch
    exact mem_bytesToHex _ ch hch

/-! Validation of the hash embedding against published test vectors. -/

/-- FIPS 180-2 test vector: SHA-256 of `"abc"`. -/
theorem sha256_vector_abc :
    bytesToHex (sha256Bytes (utf8Bytes "abc")) =
      "ba7816bf8f01cfea414140de5dae2223b00361a396177a9cb410ff61f20015ad" := by decide

set_option maxRecDepth 8000 in
/-- SHA-256 of the empty message. -/
theorem sha256_vector_empty :
    bytesToHex (sha256Bytes []) =
      "e3b0c44298fc1c149afbf4c8996fb92427ae41e4649b934ca495991b7852b855" := by decide

set_option maxRecDepth 8000 in
/-- RFC 4231 test case 2 for HMAC-SHA256. -/
theorem hmac_vector_rfc4231 :
    bytesToHex (hmacSha256 (utf8Bytes "Jefe") (utf8Bytes "what do ya want for nothing?")) =
      "5bdcc146bf60754e6a042426089575c75a003f089d2739839dec58b964ec3843" := by decide

set_option maxRecDepth 8000 in
/-- Empty inputs are hashed as-is, not rejected: the signature of three empty
strings is the HMAC-SHA256 of the message `"_"` under the empty key. -/

theorem create_hmac_signature_empty_inputs :
    create_hmac_signature "" "" "" =
      "fb691d48adcd611d66d5f61c6993743a24797632d8d6d64a93e6625c7e40705d" := by decide

/-- C3: a login request with all four inputs present whose auth call comes
back with a status outside 200/201/202 returns `authRejected` carrying the
upstream status and body, with HTTP status 401, the store untouched (returned
as was) and no S3 write in the trace — only the one auth call was made. -/
theorem C3_login_rejected_no_put (now : Int) (s3 : Option S3Client)
    (workspace_id client_id client_secret canva_user_id : String)
    (resp : AuthResponse)
    (hw : workspace_id ≠ "") (hc : client_id ≠ "") (hs : client_secret ≠ "")
    (hu : canva_user_id ≠ "")
    (hst : [200, 201, 202].contains resp.status = false) :
    login now s3 workspace_id client_id client_secret canva_user_id resp =
      (LoginResult.authRejected resp.status resp.text, s3,
       ⟨[⟨workspace_id, client_id,
          create_hmac_signature workspace_id client_id client_secret⟩], [], []⟩) ∧
    loginStatus (LoginResult.authRejected resp.status resp.text) = 401 := by
  refine ⟨?_, rfl⟩
  unfold login
  rw [hst]
  simp [pyTruthyStr, hw, hc, hs, hu]

/-- Witness for C3 at a concrete 403 response. -/
theorem C3_login_rejected_no_put_witness :
    login 0 (some ⟨[]⟩) "w1" "c1" "s1" "u1" ⟨403, "forbidden", none⟩ =
      (LoginResult.authRejected 403 "forbidden", some ⟨[]⟩,
       ⟨[⟨"w1", "c1", create_hmac_signature "w1" "c1" "s1"⟩], [], []⟩) ∧
    loginStatus (LoginResult.authRejected 403 "forbidden") = 401 :=
  C3_login_rejected_no_put 0 (some ⟨[]⟩) "w1" "c1" "s1" "u1" ⟨403, "forbidden", none⟩
    (by decide) (by decide) (by decide) (by decide) (by decide)

/-- C6: refreshing a user id with no stored record fails with
`noStoredCredentials` (HTTP 404) and the effects trace shows no outbound auth
call and no write: the store lookup comes first and the handler returns before
any HTTP request. -/
theorem C6_refresh_no_record_no_call (now : Int) (s3 : Option S3Client)
    (canva_user_id : String) (resp : AuthResponse)
    (hu : canva_user_id ≠ "")
    (hget : get_user_credentials s3 canva_user_id = none) :
    refresh_token now s3 canva_user_id resp =
      (RefreshResult.noStoredCredentials, s3,
       ⟨[], s3ReadTrace s3 canva_user_id, []⟩) ∧
    refreshStatus RefreshResult.noStoredCredentials = 404 := by
  refine ⟨?_, rfl⟩
  unfold refresh_token
  simp [pyTruthyStr, hu, hget]

/-- Witness for C6 on an empty store. -/
theorem C6_refresh_no_record_no_call_witness :
    refresh_token 0 (some ⟨[]⟩) "u1" ⟨200, "body", none⟩ =
      (RefreshResult.noStoredCredentials, some ⟨[]⟩,
       ⟨[], s3ReadTrace (some ⟨[]⟩) "u1", []⟩) ∧
    refreshStatus RefreshResult.noStoredCredentials = 404 :=
  C6_refresh_no_record_no_call 0 (some ⟨[]⟩) "u1" ⟨200, "body", none⟩
    (by decide) (by decide)

/-- C8: a settings POST with an empty phone number fails with the
invalid-input error `phoneRequired` (HTTP 400) and an empty effects trace: the
store is neither read nor written, so the stored record is unchanged (the
handler returns the store exactly as it received it). -/
theorem C8_setPhone_empty_rejected (now : Int) (s3 : Option S3Client)
    (canva_user_id : String) (auth_header : Option String)
    (hu : canva_user_id ≠ "") :
    user_settings_post now s3 canva_user_id "" auth_header =
      (SetPhoneResult.phoneRequired, s3, noEffects) ∧
    setPhoneStatus SetPhoneResult.phoneRequired = 400 := by
  refine ⟨?_, rfl⟩
  unfold user_settings_post
  simp [pyTruthyStr, hu, pyStrip]

/-- Witness for C8 on the sample store. -/
theorem C8_setPhone_empty_rejected_witness :
    user_settings_post sampleNow sampleStore "u1" "" (some "Bearer tok") =
      (SetPhoneResult.phoneRequired, sampleStore, noEffects) ∧
    setPhoneStatus SetPhoneResult.phoneRequired = 400 :=
  C8_setPhone_empty_rejected sampleNow sampleStore "u1" (some "Bearer tok") (by decide)

set_option maxRecDepth 8000 in
/-- Counterexample to C1 as stated: the stored record for `u1` carries phone
number `+15551234`; a refresh succeeds (new token issued and stored), yet the
record now stored under `u1` carries no phone number at all —
`store_user_credentials` rebuilds the document from scratch instead of
rewriting the read record. -/
theorem C1_refresh_drops_phone_cex :
    (refresh_token sampleNow sampleStore "u1" sampleAuthOK).1 =
      RefreshResult.refreshSuccess (JVal.jstr "newtok") TOKEN_EXPIRY_SECONDS ∧
    (get_user_credentials sampleStore "u1").map Record.phoneNumber =
      some (some "+15551234") ∧
    (get_user_credentials (refresh_token sampleNow sampleStore "u1" sampleAuthOK).2.1
        "u1").map Record.phoneNumber = some none := by decide

/-- C1 as amended: a successful refresh overwrites the record for the user id
with a document rebuilt from the stored credentials and the new token only —
issued-at is reset and the `phoneNumber` (and `settings_updated`) fields are
dropped, not preserved. -/
theorem C1_refresh_rebuilds_record (now : Int) (cl : S3Client) (canva_user_id : String)
    (resp : AuthResponse) (r : Record) (auth_data : JObj) (tok : JVal)
    (hu : canva_user_id ≠ "")
    (hget : get_user_credentials (some cl) canva_user_id = some r)
    (hst : [200, 201, 202].contains resp.status = true)
    (hbody : resp.jsonBody = some auth_data)
    (htok : extractToken auth_data = some tok)
    (htr : jvalTruthy tok = true) :
    (refresh_token now (some cl) canva_user_id resp).1 =
      RefreshResult.refreshSuccess tok TOKEN_EXPIRY_SECONDS ∧
    get_user_credentials (refresh_token now (some cl) canva_user_id resp).2.1
      canva_user_id =
      some ⟨canva_user_id, r.workspace_id, r.client_id, r.client_secret, tok,
            isoFormat now, some TOKEN_EXPIRY_SECONDS, none, none⟩ := by
  have hrun : refresh_token now (some cl) canva_user_id resp =
      (RefreshResult.refreshSuccess tok TOKEN_EXPIRY_SECONDS,
       some (s3PutObject cl (credFilename canva_user_id)
         (recordToJson ⟨canva_user_id, r.workspace_id, r.client_id, r.client_secret,
           tok, isoFormat now, some TOKEN_EXPIRY_SECONDS, none, none⟩)),
       ⟨[⟨r.workspace_id, r.client_id,
          create_hmac_signature r.workspace_id r.client_id r.client_secret⟩],
        s3ReadTrace (some cl) canva_user_id, s3WriteTrace (some cl) canva_user_id⟩) := by
    unfold refresh_token
    rw [hget, hst]
    simp [pyTruthyStr, hu, hbody, htok, htr, store_user_credentials]
  refine ⟨by rw [hrun], ?_⟩
  rw [hrun]
  simp [get_user_credentials, s3Get_after_put, recordOfJson_recordToJson]

/-- Witness for the amended C1 at the concrete fixtures. -/
theorem C1_refresh_rebuilds_record_witness :
    (refresh_token sampleNow (some sampleClient) "u1" sampleAuthOK).1 =
      RefreshResult.refreshSuccess (JVal.jstr "newtok") TOKEN_EXPIRY_SECONDS ∧
    get_user_credentials
      (refresh_token sampleNow (some sampleClient) "u1" sampleAuthOK).2.1 "u1" =
      some ⟨"u1", sampleRecord.workspace_id, sampleRecord.client_id,
            sampleRecord.client_secret, JVal.jstr "newtok", isoFormat sampleNow,
            some TOKEN_EXPIRY_SECONDS, none, none⟩ :=
  C1_refresh_rebuilds_record sampleNow sampleClient "u1" sampleAuthOK sampleRecord
    [("token", JVal.jstr "newtok")] (JVal.jstr "newtok")
    (by decide) (by decide) (by decide) (by decide) (by decide) (by decide)

/-- C5: token extraction tries `token` first, then `access_token`; when both
fields are absent from the response JSON the extraction yields nothing and
both login and refresh fail with `noTokenIssued` (HTTP 401), the store
untouched and no write traced; and whenever `token` is present and truthy it
wins regardless of `access_token`. -/
theorem C5_token_extraction (now : Int) (s3 : Option S3Client)
    (workspace_id client_id client_secret canva_user_id : String)
    (resp : AuthResponse) (auth_data : JObj) (r : Record)
    (hw : workspace_id ≠ "") (hc : client_id ≠ "") (hs : client_secret ≠ "")
    (hu : canva_user_id ≠ "")
    (hget : get_user_credentials s3 canva_user_id = some r)
    (hst : [200, 201, 202].contains resp.status = true)
    (hbody : resp.jsonBody = some auth_data)
    (h1 : jLookup auth_data "token" = none)
    (h2 : jLookup auth_data "access_token" = none) :
    extractToken auth_data = none ∧
    login now s3 workspace_id client_id client_secret canva_user_id resp =
      (LoginResult.noTokenIssued, s3,
       ⟨[⟨workspace_id, client_id,
          create_hmac_signature workspace_id client_id client_secret⟩], [], []⟩) ∧
    loginStatus LoginResult.noTokenIssued = 401 ∧
    refresh_token now s3 canva_user_id resp =
      (RefreshResult.noTokenIssued, s3,
       ⟨[⟨r.workspace_id, r.client_id,
          create_hmac_signature r.workspace_id r.client_id r.client_secret⟩],
        s3ReadTrace s3 canva_user_id, []⟩) ∧
    ∀ (b : JObj) (v : JVal), jLookup b "token" = some v → jvalTruthy v = true →
      extractToken b = some v := by
  have hex : extractToken auth_data = none := by
    simp [extractToken, pyOr, h1, h2, optTruthy]
  refine ⟨hex, ?_, rfl, ?_, ?_⟩
  · unfold login
    rw [hst]
    simp [pyTruthyStr, hw, hc, hs, hu, hbody, hex]
  · unfold refresh_token
    rw [hget, hst]
    simp [pyTruthyStr, hu, hbody, hex]
  · intro b v hb hv
    simp [extractToken, pyOr, hb, optTruthy, hv]

/-- Witness for C5: a success response whose JSON has neither token field. -/
theorem C5_token_extraction_witness :
    extractToken [("foo", JVal.jstr "bar")] = none ∧
    login sampleNow sampleStore "w1" "c1" "s1" "u1"
        ⟨200, "ok", some [("foo", JVal.jstr "bar")]⟩ =
      (LoginResult.noTokenIssued, sampleStore,
       ⟨[⟨"w1", "c1", create_hmac_signature "w1" "c1" "s1"⟩], [], []⟩) ∧
    loginStatus LoginResult.noTokenIssued = 401 ∧
    refresh_token sampleNow sampleStore "u1"
        ⟨200, "ok", some [("foo", JVal.jstr "bar")]⟩ =
      (RefreshResult.noTokenIssued, sampleStore,
       ⟨[⟨sampleRecord.workspace_id, sampleRecord.client_id,
          create_hmac_signature sampleRecord.workspace_id sampleRecord.client_id
            sampleRecord.client_secret⟩],
        s3ReadTrace sampleStore "u1", []⟩) ∧
    ∀ (b : JObj) (v : JVal), jLookup b "token" = some v → jvalTruthy v = true →
      extractToken b = some v :=
  C5_token_extraction sampleNow sampleStore "w1" "c1" "s1" "u1"
    ⟨200, "ok", some [("foo", JVal.jstr "bar")]⟩ [("foo", JVal.jstr "bar")] sampleRecord
    (by decide) (by decide) (by decide) (by decide) (by decide) (by decide)
    (by decide) (by decide) (by decide)

/-- Counterexample to C9 as stated: with the blob client uninitialised, a
credential-store get returns exactly the same `none` as a lookup of a missing
record on a working store — no distinct `StoreUnavailable` — and the enclosing
token request fails with 404 (`noStoredCredentials`), not a 500 store-error
status. -/
theorem C9_store_unavailable_cex :
    get_user_credentials none "u1" = none ∧
    get_user_credentials (some ⟨[]⟩) "u1" = none ∧
    get_token 0 none "u1" = GetTokenResult.noStoredCredentials ∧
    getTokenStatus (get_token 0 none "u1") = 404 ∧
    getTokenStatus (get_token 0 none "u1") ≠ 500 := by decide

/-- C9 as amended: when the blob client failed to initialise the process keeps
serving and every handler still returns an envelope, but the failure is not a
distinct store error: `get` returns the same `none` as a missing record, so
GetToken fails 404 `noStoredCredentials`; `put` reports the same failure flag
as any persist error, so a login that reaches the write fails 500
`persistFailed`. -/
theorem C9_store_unavailable_behavior (now : Int)
    (workspace_id client_id client_secret canva_user_id : String)
    (resp : AuthResponse) (auth_data : JObj) (tok : JVal)
    (hw : workspace_id ≠ "") (hc : client_id ≠ "") (hs : client_secret ≠ "")
    (hu : canva_user_id ≠ "")
    (hst : [200, 201, 202].contains resp.status = true)
    (hbody : resp.jsonBody = some auth_data)
    (htok : extractToken auth_data = some tok)
    (htr : jvalTruthy tok = true) :
    get_user_credentials none canva_user_id = none ∧
    get_token now none canva_user_id = GetTokenResult.noStoredCredentials ∧
    getTokenStatus (get_token now none canva_user_id) = 404 ∧
    store_user_credentials now none canva_user_id workspace_id client_id
      client_secret tok TOKEN_EXPIRY_SECONDS = (false, none) ∧
    login now none workspace_id client_id client_secret canva_user_id resp =
      (LoginResult.persistFailed, none,
       ⟨[⟨workspace_id, client_id,
          create_hmac_signature workspace_id client_id client_secret⟩], [], []⟩) ∧
    loginStatus LoginResult.persistFailed = 500 := by
  refine ⟨rfl, ?_, ?_, rfl, ?_, rfl⟩
  · unfold get_token
    simp [pyTruthyStr, hu, get_user_credentials]
  · unfold get_token
    simp [pyTruthyStr, hu, get_user_credentials, getTokenStatus]
  · unfold login
    rw [hst]
    simp [pyTruthyStr, hw, hc, hs, hu, hbody, htok, htr, store_user_credentials,
      s3WriteTrace]

/-- Witness for the amended C9 at concrete inputs. -/
theorem C9_store_unavailable_behavior_witness :
    get_user_credentials none "u1" = none ∧
    get_token sampleNow none "u1" = GetTokenResult.noStoredCredentials ∧
    getTokenStatus (get_token sampleNow none "u1") = 404 ∧
    store_user_credentials sampleNow none "u1" "w1" "c1" "s1" (JVal.jstr "newtok")
      TOKEN_EXPIRY_SECONDS = (false, none) ∧
    login sampleNow none "w1" "c1" "s1" "u1" sampleAuthOK =
      (LoginResult.persistFailed, none,
       ⟨[⟨"w1", "c1", create_hmac_signature "w1" "c1" "s1"⟩], [], []⟩) ∧
    loginStatus LoginResult.persistFailed = 500 :=
  C9_store_unavailable_behavior sampleNow "w1" "c1" "s1" "u1" sampleAuthOK
    [("token", JVal.jstr "newtok")] (JVal.jstr "newtok")
    (by decide) (by decide) (by decide) (by decide) (by decide) (by decide)
    (by decide) (by decide)

/-- Inversion of a successful login run: the issued token was truthy and the
store now maps the user id to a record carrying exactly that token. -/
theorem login_success_run (now : Int) (s3 : Option S3Client)
    (workspace_id client_id client_secret canva_user_id : String) (resp : AuthResponse)
    (res : LoginResult) (s3b : Option S3Client) (eff : Effects) (tok : JVal) (exp : Int)
    (hrun : login now s3 workspace_id client_id client_secret canva_user_id resp =
      (res, s3b, eff))
    (hres : res = LoginResult.loginSuccess tok exp) :
    jvalTruthy tok = true ∧
    (get_user_credentials s3b canva_user_id).map Record.login_token = some tok := by
  subst hres
  rcases s3 with _ | cl <;>
  · unfold login at hrun
    dsimp only at hrun
    split at hrun
    · simp_all
    · split at hrun
      · simp_all
      · split at hrun
        · simp_all
        · split at hrun
          · simp_all
          · split at hrun
            · simp_all
            · split at hrun
              · simp only [store_user_credentials, Prod.mk.injEq,
                  LoginResult.loginSuccess.injEq] at hrun
                obtain ⟨⟨hv, hexp⟩, hs3b, heff⟩ := hrun
                subst hs3b
                subst hv
                simp_all [store_user_credentials, get_user_credentials,
                  s3Get_after_put, recordOfJson_recordToJson]
              · simp_all

/-- Inversion of a successful refresh run: the issued token was truthy and the
store now maps the user id to a record carrying exactly that token. -/
theorem refresh_success_run (now : Int) (s3 : Option S3Client)
    (canva_user_id : String) (resp : AuthResponse)
    (res : RefreshResult) (s3b : Option S3Client) (eff : Effects) (tok : JVal) (exp : Int)
    (hrun : refresh_token now s3 canva_user_id resp = (res, s3b, eff))
    (hres : res = RefreshResult.refreshSuccess tok exp) :
    jvalTruthy tok = true ∧
    (get_user_credentials s3b canva_user_id).map Record.login_token = some tok := by
  subst hres
  rcases s3 with _ | cl <;>
  · unfold refresh_token at hrun
    dsimp only at hrun
    split at hrun
    · simp_all
    · split at hrun
      · simp_all
      · split at hrun
        · simp_all
        · split at hrun
          · simp_all
          · split at hrun
            · simp_all
            · split at hrun
              · simp_all
              · split at hrun
                · simp only [store_user_credentials, Prod.mk.injEq,
                    RefreshResult.refreshSuccess.injEq] at hrun
                  obtain ⟨⟨hv, hexp⟩, hs3b, heff⟩ := hrun
                  subst hs3b
                  subst hv
                  simp_all [store_user_credentials, get_user_credentials,
                    s3Get_after_put, recordOfJson_recordToJson]
                · simp_all

/-- C10: a token field present but equal to the empty string is treated like
an absent field — extraction yields nothing, login and refresh fail with
`noTokenIssued` and the store is untouched; and every record written by a
successful login or refresh carries a truthy (in particular non-empty) token:
whenever either handler reports success with token `tok`, `tok` is truthy and
the record now stored for the user id carries exactly `tok`. -/
theorem C10_nonempty_token_invariant (now : Int) (s3 : Option S3Client)
    (workspace_id client_id client_secret canva_user_id : String)
    (resp : AuthResponse) (auth_data : JObj) (r : Record)
    (hw : workspace_id ≠ "") (hc : client_id ≠ "") (hs : client_secret ≠ "")
    (hu : canva_user_id ≠ "")
    (hget : get_user_credentials s3 canva_user_id = some r)
    (hst : [200, 201, 202].contains resp.status = true)
    (hbody : resp.jsonBody = some auth_data)
    (htokf : jLookup auth_data "token" = some (JVal.jstr ""))
    (hacc : jLookup auth_data "access_token" = none) :
    extractToken auth_data = none ∧
    login now s3 workspace_id client_id client_secret canva_user_id resp =
      (LoginResult.noTokenIssued, s3,
       ⟨[⟨workspace_id, client_id,
          create_hmac_signature workspace_id client_id client_secret⟩], [], []⟩) ∧
    refresh_token now s3 canva_user_id resp =
      (RefreshResult.noTokenIssued, s3,
       ⟨[⟨r.workspace_id, r.client_id,
          create_hmac_signature r.workspace_id r.client_id r.client_secret⟩],
        s3ReadTrace s3 canva_user_id, []⟩) ∧
    (∀ (resp2 : AuthResponse) (tok : JVal) (exp : Int),
      (login now s3 workspace_id client_id client_secret canva_user_id resp2).1 =
        LoginResult.loginSuccess tok exp →
      jvalTruthy tok = true ∧
      (get_user_credentials
        (login now s3 workspace_id client_id client_secret canva_user_id resp2).2.1
        canva_user_id).map Record.login_token = some tok) ∧
    (∀ (resp2 : AuthResponse) (tok : JVal) (exp : Int),
      (refresh_token now s3 canva_user_id resp2).1 =
        RefreshResult.refreshSuccess tok exp →
      jvalTruthy tok = true ∧
      (get_user_credentials (refresh_token now s3 canva_user_id resp2).2.1
        canva_user_id).map Record.login_token = some tok) := by
  have hex : extractToken auth_data = none := by
    simp [extractToken, pyOr, htokf, hacc, optTruthy, jvalTruthy]
  refine ⟨hex, ?_, ?_, ?_, ?_⟩
  · unfold login
    rw [hst]
    simp [pyTruthyStr, hw, hc, hs, hu, hbody, hex]
  · unfold refresh_token
    rw [hget, hst]
    simp [pyTruthyStr, hu, hbody, hex]
  · intro resp2 tok exp h
    exact login_success_run now s3 workspace_id client_id client_secret canva_user_id
      resp2 _ _ _ tok exp rfl h
  · intro resp2 tok exp h
    exact refresh_success_run now s3 canva_user_id resp2 _ _ _ tok exp rfl h

/-- Witness for C10: a success response whose `token` field is the empty
string and which has no `access_token` field. -/
theorem C10_nonempty_token_invariant_witness :
    extractToken [("token", JVal.jstr "")] = none ∧
    login sampleNow sampleStore "w1" "c1" "s1" "u1"
        ⟨200, "ok", some [("token", JVal.jstr "")]⟩ =
      (LoginResult.noTokenIssued, sampleStore,
       ⟨[⟨"w1", "c1", create_hmac_signature "w1" "c1" "s1"⟩], [], []⟩) ∧
    refresh_token sampleNow sampleStore "u1"
        ⟨200, "ok", some [("token", JVal.jstr "")]⟩ =
      (RefreshResult.noTokenIssued, sampleStore,
       ⟨[⟨sampleRecord.workspace_id, sampleRecord.client_id,
          create_hmac_signature sampleRecord.workspace_id sampleRecord.client_id
            sampleRecord.client_secret⟩],
        s3ReadTrace sampleStore "u1", []⟩) ∧
    (∀ (resp2 : AuthResponse) (tok : JVal) (exp : Int),
      (login sampleNow sampleStore "w1" "c1" "s1" "u1" resp2).1 =
        LoginResult.loginSuccess tok exp →
      jvalTruthy tok = true ∧
      (get_user_credentials
        (login sampleNow sampleStore "w1" "c1" "s1" "u1" resp2).2.1
        "u1").map Record.login_token = some tok) ∧
    (∀ (resp2 : AuthResponse) (tok : JVal) (exp : Int),
      (refresh_token sampleNow sampleStore "u1" resp2).1 =
        RefreshResult.refreshSuccess tok exp →
      jvalTruthy tok = true ∧
      (get_user_credentials (refresh_token sampleNow sampleStore "u1" resp2).2.1
        "u1").map Record.login_token = some tok) :=
  C10_nonempty_token_invariant sampleNow sampleStore "w1" "c1" "s1" "u1"
    ⟨200, "ok", some [("token", JVal.jstr "")]⟩ [("token", JVal.jstr "")] sampleRecord
    (by decide) (by decide) (by decide) (by decide) (by decide) (by decide)
    (by decide) (by decide) (by decide)

end Zotok
